import Mathlib

/-!
Verification of the crossmatch-alert-to-skymaps correlation engine.

Shallow embedding of the core logic of the repository:
  - utils.py        : detection filtering (`get_and_process_valid_obj`),
                      dedup window (`get_new_skymaps_for_processed_obj`),
                      containment (`is_obj_in_skymaps`), skymap retrieval (`get_skymaps`)
  - api.py          : pagination (`fetch_all_pages`), liveness probe (`ping`)
  - crossmatch_alert_to_skymaps.py : the per-cycle loop body (`cycleBody`),
                      cache upsert selection/store and TTL eviction.

Modelling conventions:
  - Timestamps (both ISO `dateobs` strings and MJD floats) are represented by
    rationals.  ISO-8601 string ordering is order-isomorphic to chronological
    order, and `astropy.time.Time(dateobs).mjd` is an order isomorphism onto
    MJD values, so a `dateobs` is represented directly by its MJD value and
    every comparison in the source becomes the corresponding comparison on
    rationals.
  - A MOC (sky region) is abstracted by its point-containment predicate
    (`mocpy` `contains_lonlat`), the only operation the core logic uses.
  - Backend responses (GCN events, objects, photometry, page contents) are
    inputs to the functions that consume them; the HTTP client is an external
    collaborator.
  - The dynamic-typing mismatch on the new-event path (a list returned where a
    dict is consumed) is embedded with a two-constructor value type `PyVal`
    whose `items` method succeeds only on the dict constructor, mirroring
    Python attribute lookup.
-/

namespace Crossmatch

/-- A sky region abstracted by its `contains_lonlat (ra, dec)` predicate. -/
abbrev MOC := ℚ → ℚ → Bool

/-- One photometry point: `mjd` plus the `snr` field read by the filter.
`none` models a null/absent SNR (Python falsy), `some 0` models SNR zero
(also falsy); any other value is truthy. -/
structure Phot where
  mjd : ℚ
  snr : Option ℚ
  deriving Repr, DecidableEq

/-- Python truthiness of `phot["snr"]` in `utils.py` line 156. -/
def snrTruthy (p : Phot) : Bool :=
  match p.snr with
  | some s => s != 0
  | none => false

/-- An alert object as consumed by the loop: id, position, and the photometry
returned by `get_object_photometry` (in chronological order, as the source
assumes when it calls `reversed`). -/
structure Obj where
  id : String
  ra : ℚ
  dec : ℚ
  photometry : List Phot
  deriving Repr, DecidableEq

/-- An object together with its `filtered_photometry` field, the dict-spread
`{**obj, "filtered_photometry": ...}` of `utils.py` line 164. -/
structure FilteredObj where
  obj : Obj
  filtered_photometry : List Phot
  deriving Repr, DecidableEq

/-- The inner loop of `get_and_process_valid_obj` (utils.py lines 153-162
plus the `for ... else` clause at line 163): traverse the photometry
newest-to-oldest (the third list argument is `reversed(photometry)`),
carrying `last_non_detection` and `filtered_photometry`.  Returns `none`
when the `break` at line 160 fires (object dropped) and
`some (last_non_detection ++ filtered_photometry-in-chronological-order)`
when the traversal exhausts (object kept, line 163-167).  The accumulator
is consed on the left, so it is already in chronological order and the
final value is `lnd ++ filt`, matching
`last_non_detection + list(reversed(filtered_photometry))`. -/
def processPhot (snr_threshold first_detection_fallback : ℚ) :
    List Phot → List Phot → List Phot → Option (List Phot)
  | lnd, filt, [] => some (lnd ++ filt)
  | lnd, filt, p :: rest =>
    if snrTruthy p then
      if snr_threshold ≤ p.snr.getD 0 ∧ p.mjd < first_detection_fallback then
        none
      else
        processPhot snr_threshold first_detection_fallback [] (p :: filt) rest
    else if lnd.isEmpty then
      processPhot snr_threshold first_detection_fallback [p] filt rest
    else
      processPhot snr_threshold first_detection_fallback lnd filt rest

/-- Embedding of `get_and_process_valid_obj` (utils.py lines 125-168) with the backend
abstracted: the objects returned by `skyportal.get_objects(payload)` are the
`objs` argument and each object carries its photometry.  Returns the list of
kept objects (each with its `filtered_photometry`) and `len(objs)`. -/
def get_and_process_valid_obj (snr_threshold first_detection_fallback : ℚ)
    (objs : List Obj) : List FilteredObj × Nat :=
  (objs.filterMap (fun o =>
      (processPhot snr_threshold first_detection_fallback [] [] o.photometry.reverse).map
        (fun fp => FilteredObj.mk o fp)),
   objs.length)

/-- A skymap tuple `(dateobs, alias, moc)` as stored in the `skymaps` dict
and passed around by the loop (`alias` is a Lean keyword, hence
`aliasName`). -/
structure SkymapT where
  dateobs : ℚ
  aliasName : String
  moc : MOC

/-- Embedding of `is_obj_in_skymaps` (utils.py lines 101-123). -/
def is_obj_in_skymaps (ra dec : ℚ) (skymaps : List SkymapT) : List SkymapT :=
  skymaps.filter (fun s => s.moc ra dec)

/-- Embedding of `get_new_skymaps_for_processed_obj` (utils.py lines 170-204): drop the
last filtered photometry point, return everything on first run or when
nothing remains, otherwise scan the remaining points newest-to-oldest
(`for phot in reversed(photometry)` with `break`, i.e. `find?`) for the
first point with `mjd < last_processed_mjd`; on success keep the skymaps
with `Time(dateobs).mjd >= last_processed_alert_mjd`, otherwise (the
`for ... else` at line 201) return all skymaps. -/
def get_new_skymaps_for_processed_obj (o : FilteredObj) (skymaps : List SkymapT)
    (last_processed_mjd : ℚ) (is_first_run : Bool) : List SkymapT :=
  let photometry := o.filtered_photometry.dropLast
  if photometry.length < 1 ∨ is_first_run then
    skymaps
  else
    match photometry.reverse.find? (fun p => decide (p.mjd < last_processed_mjd)) with
    | some b => skymaps.filter (fun s => decide (b.mjd ≤ s.dateobs))
    | none => skymaps

/-- A localization of a GCN event: its `dateobs`, its tag texts, and the
region its FITS file yields (download and MOC construction abstracted into
the `moc` field). -/
structure Loc where
  dateobs : ℚ
  tags : List String
  moc : MOC

/-- A GCN event as returned by `get_gcn_events`: id, localizations ordered
most-recent-first, aliases. -/
structure GcnEvent where
  id : Nat
  localizations : List Loc
  aliases : List String

/-- The localization selected at lines 55-59 of
crossmatch_alert_to_skymaps.py: the first one carrying the
`< 1000 sq. deg.` tag. -/
def qualifyingLoc (e : GcnEvent) : Option Loc :=
  e.localizations.find? (fun loc => loc.tags.any (fun t => t == "< 1000 sq. deg."))

/-- The `skymaps` dict: `event id -> (dateobs, alias, moc)`. -/
abbrev Cache := List (Nat × SkymapT)

/-- The new-event selection of lines 53-65 of
crossmatch_alert_to_skymaps.py: keep an event when it has a qualifying
localization and is either absent from the cache or strictly newer than the
cached `dateobs` (tuple slot 0). -/
def selectNewEvents (skymaps : Cache) (events : List GcnEvent) : List GcnEvent :=
  events.filter (fun e =>
    match qualifyingLoc e with
    | none => false
    | some loc =>
      match skymaps.lookup e.id with
      | none => true
      | some t => decide (t.dateobs < loc.dateobs))

/-- The alias computation of utils.py lines 93-96:
take the last hash-separated segment of the first entry of `aliases` when
aliases exist, else the string `No aliases`. -/
def aliasOf (e : GcnEvent) : String :=
  match e.aliases with
  | [] => "No aliases"
  | a :: _ => (a.splitOn "#").getLastD a

/-- The tuple built for one event inside `get_skymaps` (utils.py lines
87-97): skip events without localizations, else take `localizations[0]`
and pair its `dateobs` with the alias and the MOC built from its file. -/
def skymapTupleOf (e : GcnEvent) : Option SkymapT :=
  match e.localizations with
  | [] => none
  | l0 :: _ => some (SkymapT.mk l0.dateobs (aliasOf e) l0.moc)

/-- The errors the loop body can catch: the `AttributeError` from calling
`.items()` on a list, and the `APIError` raised by the `handle_timeout`
decorator on a request timeout (api.py lines 38-39). -/
inductive PyErr where
  | attributeError
  | apiTimeout
  deriving Repr, DecidableEq

/-- A dynamically typed Python value at the point of the
`new_skymaps.items()` call: either a list of skymap tuples or a dict from
event id to skymap tuple. -/
inductive PyVal where
  | plist (xs : List SkymapT)
  | pdict (xs : List (Nat × SkymapT))

/-- Python attribute lookup plus call of `.items()`: defined on dicts,
raises `AttributeError` on lists. -/
def PyVal.items : PyVal → Except PyErr (List (Nat × SkymapT))
  | .pdict xs => Except.ok xs
  | .plist _ => Except.error PyErr.attributeError

/-- Embedding of `get_skymaps` (utils.py lines 63-99): builds one `(dateobs, alias, moc)`
tuple per event that has localizations and returns them as a LIST.  The
`gcn_events` argument stands for whatever `skyportal.get_gcn_events(fallback)`
returned inside the function (at the call site in the loop, `fallback` is
bound to the list of new GCN events, so this inner response is unconstrained).
The empty-response early return at line 84 also yields a list. -/
def get_skymaps (gcn_events : List GcnEvent) : PyVal :=
  PyVal.plist (gcn_events.filterMap skymapTupleOf)

/-- Python dict assignment `skymaps[event_id] = skymap_tuple` (line 73):
replace in place when the key exists, else append. -/
def insertCache (c : Cache) (k : Nat) (t : SkymapT) : Cache :=
  if c.any (fun kv => kv.1 == k) then
    c.map (fun kv => if kv.1 == k then (k, t) else kv)
  else
    c ++ [(k, t)]

/-- SkymapCache `upsert` for a single event, assembled from the selection at
lines 53-65 and the store at lines 72-73 of crossmatch_alert_to_skymaps.py
(with the stored tuple built as in `get_skymaps`): a no-op unless the event
has a qualifying localization that is new or strictly newer than the cached
entry. -/
def upsert (c : Cache) (e : GcnEvent) : Cache :=
  if (selectNewEvents c [e]).isEmpty then c
  else
    match skymapTupleOf e with
    | none => c
    | some t => insertCache c e.id t

/-- Python `del skymaps[event_id]`: remove the entry with the given key. -/
def eraseKey (c : Cache) (k : Nat) : Cache :=
  c.eraseP (fun kv => kv.1 == k)

/-- The eviction of lines 76-81 of crossmatch_alert_to_skymaps.py: collect
the ids of entries with `dateobs < gcn_fallback`, then delete each. -/
def evict (c : Cache) (gcn_fallback : ℚ) : Cache :=
  let expired := (c.filter (fun kv => decide (kv.2.dateobs < gcn_fallback))).map Prod.fst
  expired.foldl eraseKey c

/-- The guarded eviction of lines 67-81: eviction runs only when there are
no new GCN events and the cache is non-empty (`elif skymaps:`). -/
def evictPhase (sk : Cache) (gcn_fallback : ℚ) : Cache :=
  if sk.isEmpty then sk else evict sk gcn_fallback

/-- Embedding of `fetch_all_pages` (api.py lines 150-169) with the backend abstracted as a
function from page number to `(results[item_key], results["totalMatches"])`
and an explicit fuel bound standing for the unbounded `while True`.  Returns
the accumulated items and the number of page fetches performed. -/
def fetch_all_pages {α : Type} (backend : Nat → List α × Nat) :
    Nat → Nat → List α → List α × Nat
  | 0, _, acc => (acc, 0)
  | fuel + 1, page, acc =>
    let r := backend page
    let items := acc ++ r.1
    if r.2 ≤ items.length then (items, 1)
    else
      let rest := fetch_all_pages backend fuel (page + 1) items
      (rest.1, rest.2 + 1)

/-- The inputs one loop iteration draws from the outside world: the liveness
probe outcome (`Except.error ()` models a request timeout, `Except.ok b` a
response with success flag `b`), the two backend responses for GCN events
(the loop-level call at line 54 and the misdirected call inside
`get_skymaps`), the eviction horizon `fallback(GCN)`, the objects returned
by the object query, `fallback(FIRST_DETECTION)` in MJD, and the dedup
cursor `fallback(seconds=SLEEP_TIME)` in MJD. -/
structure CycleInput where
  ping : Except Unit Bool
  gcn_events : List GcnEvent
  inner_gcn_events : List GcnEvent
  gcn_fallback : ℚ
  objs : List Obj
  first_detection_fallback : ℚ
  dedup_cursor : ℚ

/-- What one loop iteration did: the error caught by the `except` arms (if
any), the cache after the iteration, the notifications dispatched through
`send_to_gcn` (object id with its matching skymaps), and whether the
GCN-event fetch and the object query were reached. -/
structure CycleOut where
  error : Option PyErr
  skymaps : Cache
  notifications : List (String × List SkymapT)
  fetched_gcn_events : Bool
  queried_objects : Bool

/-- The SNR threshold fixed at line 39 of crossmatch_alert_to_skymaps.py. -/
def snr_threshold : ℚ := 5

/-- Lines 93-116 of crossmatch_alert_to_skymaps.py: filter the objects, and
for each kept object compute its dedup window over `list(skymaps.values())`,
test containment, and dispatch `send_to_gcn(obj, matching_skymaps)` when at
least one skymap matches. -/
def notificationsFor (sk : Cache) (objs : List Obj)
    (first_detection_fallback dedup_cursor : ℚ) (is_first_run : Bool) :
    List (String × List SkymapT) :=
  (get_and_process_valid_obj snr_threshold first_detection_fallback objs).1.filterMap
    (fun o =>
      let news := get_new_skymaps_for_processed_obj o (sk.map Prod.snd)
        dedup_cursor is_first_run
      let matching := is_obj_in_skymaps o.obj.ra o.obj.dec news
      if matching.isEmpty then none else some (o.obj.id, matching))

/-- The `if skymaps:` guard at line 84: the object query and notification
dispatch run only when the cache is non-empty. -/
def objectPhase (sk : Cache) (inp : CycleInput) (is_first_run : Bool) :
    List (String × List SkymapT) × Bool :=
  if sk.isEmpty then ([], false)
  else (notificationsFor sk inp.objs inp.first_detection_fallback inp.dedup_cursor
          is_first_run,
        true)

/-- One iteration of the `while True` body (crossmatch_alert_to_skymaps.py
lines 47-137).  The ping result, when it arrives, is not inspected (the
source discards the return value of `skyportal.ping()`); only a raised
timeout aborts the cycle.  When new GCN events are selected, `get_skymaps`
is called (with the event list in its date-parameter position) and the
result has `.items()` called on it; an exception there is caught by the
`except` arms, leaving the cache as already mutated so far and skipping the
rest of the cycle.  Otherwise expired entries are evicted and the object
phase runs. -/
def cycleBody (inp : CycleInput) (sk : Cache) (is_first_run : Bool) : CycleOut :=
  match inp.ping with
  | Except.error _ => CycleOut.mk (some PyErr.apiTimeout) sk [] false false
  | Except.ok _ =>
    let newEvents := selectNewEvents sk inp.gcn_events
    if newEvents.isEmpty then
      let sk2 := evictPhase sk inp.gcn_fallback
      let r := objectPhase sk2 inp is_first_run
      CycleOut.mk none sk2 r.1 true r.2
    else
      match (get_skymaps inp.inner_gcn_events).items with
      | Except.error e => CycleOut.mk (some e) sk [] true false
      | Except.ok pairs =>
        let sk2 := pairs.foldl (fun m kv => insertCache m kv.1 kv.2) sk
        let r := objectPhase sk2 inp is_first_run
        CycleOut.mk none sk2 r.1 true r.2

/-- Modelled from the claim wording of C4 (spec section 4.4): drop the most
recent filtered photometry point; if no points remain or the first-run flag
is set, return the full region list; otherwise scan the remaining points
newest-to-oldest for the first with `mjd < cursor` and, when found, return
exactly the regions whose `dateobs` (in MJD) is at least that boundary,
else the full list. -/
def dedupWindowSpec (o : FilteredObj) (skymaps : List SkymapT)
    (cursor : ℚ) (is_first_run : Bool) : List SkymapT :=
  match o.filtered_photometry.reverse with
  | [] => skymaps
  | _ :: remaining =>
    if is_first_run ∨ remaining = [] then skymaps
    else
      match remaining.find? (fun p => decide (p.mjd < cursor)) with
      | some b => skymaps.filter (fun s => decide (b.mjd ≤ s.dateobs))
      | none => skymaps

/-- A point the spec-side traversal of claim C2 would stop at: a detection
(truthy SNR) with SNR at least the threshold and mjd below the fallback. -/
def qualifies (snr_threshold first_detection_fallback : ℚ) (p : Phot) : Bool :=
  snrTruthy p && decide (snr_threshold ≤ p.snr.getD 0)
    && decide (p.mjd < first_detection_fallback)

/-- Modelled from the claim wording of C2: the newest-to-oldest traversal
reaches a point with SNR at least the threshold and mjd below the lookback
floor.  The traversal only ever stops at such a point, so reaching one is
the same as one existing. -/
def reachesQualifying (snr_threshold first_detection_fallback : ℚ)
    (photometry : List Phot) : Bool :=
  photometry.reverse.any (qualifies snr_threshold first_detection_fallback)

/-! Concrete data for the scenario claims of spec section 8 and for the
counterexamples and witnesses. -/

/-- Detection at mjd 100 with SNR 8 (spec section 8 end-to-end scenario). -/
def p100 : Phot := Phot.mk 100 (some 8)

/-- Detection at mjd 101 with SNR 9 (spec section 8 end-to-end scenario). -/
def p101 : Phot := Phot.mk 101 (some 9)

/-- The scenario object O at (ra, dec) = (10, 20). -/
def objO : Obj := Obj.mk "O" 10 20 [p100, p101]

/-- A region containing exactly the point (10, 20). -/
def mocR : MOC := fun ra dec => ra == 10 && dec == 20

/-- The scenario region R covering (10, 20) with `dateobs` at mjd 100. -/
def regionR : SkymapT := SkymapT.mk 100 "R" mocR

/-- A cache holding only region R. -/
def cacheR : Cache := [(1, regionR)]

/-- Scenario poll input: ping succeeds, no new GCN events, eviction horizon
mjd 99 (48 h before "now" at mjd 101), object O returned by the query,
first-detection fallback F = 99, dedup cursor at mjd 101 (one poll interval
before "now"); the same external responses arrive on both polls. -/
def inpPoll : CycleInput := CycleInput.mk (Except.ok true) [] [] 99 [objO] 99 101

/-- First scenario poll (first run). -/
def pollOut1 : CycleOut := cycleBody inpPoll cacheR true

/-- Second scenario poll, on the state left by the first. -/
def pollOut2 : CycleOut := cycleBody inpPoll pollOut1.skymaps false

/-- An object whose single point is a detection with SNR 10 at mjd 50: its
traversal reaches a point with SNR above threshold 5 and mjd below 99. -/
def objQ : Obj := Obj.mk "Q" 0 0 [Phot.mk 50 (some 10)]

/-- An object whose single point has SNR 1, below every threshold used. -/
def objN : Obj := Obj.mk "N" 0 0 [Phot.mk 50 (some 1)]

/-- An object with no photometry at all. -/
def objE : Obj := Obj.mk "E" 0 0 []

/-- A non-detection-boundary point at mjd 50 with SNR 7. -/
def p50 : Phot := Phot.mk 50 (some 7)

/-- A processed object whose remaining photometry (after dropping the most
recent point) is the single point at mjd 50. -/
def objP : FilteredObj := FilteredObj.mk (Obj.mk "P" 0 0 []) [p50, p101]

/-- A region with `dateobs` at mjd 70: newer than the boundary point at mjd
50 but older than the dedup cursor at mjd 100. -/
def region70 : SkymapT := SkymapT.mk 70 "R70" (fun _ _ => true)

/-- A region predicate used where containment is irrelevant. -/
def mocFalse : MOC := fun _ _ => false

/-- Event A with a qualifying localization at t = 10. -/
def evA10 : GcnEvent := GcnEvent.mk 1 [Loc.mk 10 ["< 1000 sq. deg."] mocFalse] ["GRB#A"]

/-- Event A again, now with a qualifying localization at t = 5. -/
def evA5 : GcnEvent := GcnEvent.mk 1 [Loc.mk 5 ["< 1000 sq. deg."] mocFalse] ["GRB#A"]

/-- A cache with two entries, one expired at horizon 99 and one live. -/
def cacheW : Cache := [(1, region70), (2, regionR)]

/-- A backend reporting 2500 total matches at page size 1000 and returning
`min 1000 remaining` items per page. -/
def backend2500 : Nat → List Unit × Nat := fun page =>
  (List.replicate (min 1000 (2500 - (page - 1) * 1000)) (), 2500)

/-- A GCN event not in the cache, with a qualifying localization. -/
def evNew : GcnEvent := GcnEvent.mk 7 [Loc.mk 50 ["< 1000 sq. deg."] mocFalse] []

/-- A cycle input whose GCN fetch returns a genuinely new qualifying event. -/
def inpC10 : CycleInput := CycleInput.mk (Except.ok true) [evNew] [evNew] 99 [objO] 99 101

/-- A cycle input whose liveness probe returns a non-success response
(`ping()` returns `False`). -/
def inpC8 : CycleInput := CycleInput.mk (Except.ok false) [] [] 99 [objO] 99 101

/-- A cycle input whose liveness probe times out. -/
def inpDown : CycleInput := CycleInput.mk (Except.error ()) [] [] 99 [objO] 99 101

/-! Helper lemmas about the detection filter. -/

/-- The traversal loop drops the object exactly when some traversed point is
a detection meeting the threshold with mjd below the fallback: the `break`
at utils.py line 160 fires only at such a point, and every other branch
continues the traversal. -/
theorem processPhot_eq_none_iff (τ F : ℚ) :
    ∀ (l lnd filt : List Phot),
      processPhot τ F lnd filt l = none ↔ ∃ p ∈ l, qualifies τ F p = true := by
  intro l
  induction l with
  | nil => intro lnd filt; simp [processPhot]
  | cons p rest ih =>
    intro lnd filt
    rw [processPhot]
    by_cases hdet : snrTruthy p = true
    · rw [if_pos hdet]
      by_cases hq : τ ≤ p.snr.getD 0 ∧ p.mjd < F
      · rw [if_pos hq]
        constructor
        · intro _
          exact ⟨p, List.mem_cons_self p rest, by
            simp [qualifies, hdet, hq.1, hq.2]⟩
        · intro _; rfl
      · rw [if_neg hq, ih]
        constructor
        · rintro ⟨q, hq1, hq2⟩
          exact ⟨q, List.mem_cons_of_mem p hq1, hq2⟩
        · rintro ⟨q, hq1, hq2⟩
          rcases List.mem_cons.mp hq1 with h | h
          · exfalso
            apply hq
            rw [h] at hq2
            simp only [qualifies, Bool.and_eq_true, decide_eq_true_eq] at hq2
            exact ⟨hq2.1.2, hq2.2⟩
          · exact ⟨q, h, hq2⟩
    · have hqp : qualifies τ F p = false := by
        have hdet2 : snrTruthy p = false := by
          revert hdet; cases snrTruthy p <;> simp
        simp [qualifies, hdet2]
      rw [if_neg hdet]
      by_cases hl : lnd.isEmpty = true
      · rw [if_pos hl, ih]
        simp [hqp]
      · rw [if_neg hl, ih]
        simp [hqp]

/-- A kept object yields an empty output only from an empty traversal with
empty accumulators. -/
theorem processPhot_some_nil (τ F : ℚ) :
    ∀ (l lnd filt : List Phot),
      processPhot τ F lnd filt l = some [] → l = [] ∧ lnd = [] ∧ filt = [] := by
  intro l
  induction l with
  | nil =>
    intro lnd filt h
    simp only [processPhot, Option.some.injEq] at h
    rcases List.append_eq_nil.mp h with ⟨h1, h2⟩
    exact ⟨rfl, h1, h2⟩
  | cons p rest ih =>
    intro lnd filt h
    rw [processPhot] at h
    by_cases hdet : snrTruthy p = true
    · rw [if_pos hdet] at h
      by_cases hq : τ ≤ p.snr.getD 0 ∧ p.mjd < F
      · rw [if_pos hq] at h
        exact Option.noConfusion h
      · rw [if_neg hq] at h
        rcases ih _ _ h with ⟨_, _, hcons⟩
        exact absurd hcons (List.cons_ne_nil p filt)
    · rw [if_neg hdet] at h
      by_cases hl : lnd.isEmpty = true
      · rw [if_pos hl] at h
        rcases ih _ _ h with ⟨_, hcons, _⟩
        exact absurd hcons (List.cons_ne_nil p [])
      · rw [if_neg hl] at h
        rcases ih _ _ h with ⟨_, hnil, _⟩
        rw [hnil] at hl
        exact absurd (by simp) hl

/-! Claims about the detection filter. -/

/-- C2 counterexample: with threshold 5 and fallback 99, object Q has a
traversed detection with SNR 10 at mjd 50 (so it reaches a point with SNR
at least the threshold and mjd below the fallback), yet
`get_and_process_valid_obj` drops it, and object N, none of whose points
reaches threshold 5, is kept — both opposite to the claim. -/
theorem c2_counterexample :
    reachesQualifying 5 99 objQ.photometry = true
      ∧ (get_and_process_valid_obj 5 99 [objQ]).1 = []
      ∧ (get_and_process_valid_obj 5 99 [objN]).1
          = [FilteredObj.mk objN [Phot.mk 50 (some 1)]] := by
  refine ⟨by decide, by decide, by decide⟩

/-- C2 amended: an object with photometry is kept IF AND ONLY IF its
newest-to-oldest traversal never reaches a detection point with SNR at
least the threshold and mjd below the lookback floor; reaching such a
point drops the object (the source `for ... else` keeps an object exactly
when the loop exhausts without `break`). -/
theorem c2_theorem (τ F : ℚ) (objs : List Obj) (o : Obj) (ho : o ∈ objs) :
    (∃ fp, FilteredObj.mk o fp ∈ (get_and_process_valid_obj τ F objs).1)
      ↔ reachesQualifying τ F o.photometry = false := by
  have key : reachesQualifying τ F o.photometry = false
      ↔ ¬ ∃ p ∈ o.photometry.reverse, qualifies τ F p = true := by
    rw [reachesQualifying]
    simp [List.any_eq_true]
  constructor
  · rintro ⟨fp, hfp⟩
    rcases List.mem_filterMap.mp hfp with ⟨a, _, ha2⟩
    rcases Option.map_eq_some'.mp ha2 with ⟨x, hx1, hx2⟩
    have hao : a = o := congrArg FilteredObj.obj hx2
    rw [hao] at hx1
    rw [key]
    intro hex
    rw [← processPhot_eq_none_iff τ F o.photometry.reverse [] []] at hex
    rw [hex] at hx1
    exact Option.noConfusion hx1
  · intro hreach
    rw [key] at hreach
    rw [← processPhot_eq_none_iff τ F o.photometry.reverse [] []] at hreach
    rcases Option.ne_none_iff_exists'.mp hreach with ⟨fp, hfp⟩
    refine ⟨fp, List.mem_filterMap.mpr ⟨o, ho, ?_⟩⟩
    rw [hfp]
    rfl

/-- C2 witness: object N (no point at threshold 5) is kept by the filter. -/
theorem c2_witness :
    (∃ fp, FilteredObj.mk objN fp ∈ (get_and_process_valid_obj 5 99 [objN]).1)
      ↔ reachesQualifying 5 99 objN.photometry = false :=
  c2_theorem 5 99 [objN] objN (by decide)

/-- C3 counterexample: the object with an empty photometry list is kept by
the filter (the claim says rejected) and the emitted filtered set is empty
(the claim says never empty). -/
theorem c3_counterexample :
    (get_and_process_valid_obj 5 99 [objE]).1 = [FilteredObj.mk objE []]
      ∧ (FilteredObj.mk objE []).filtered_photometry = [] := by
  exact ⟨by decide, rfl⟩

/-- C3 amended: an emitted FilteredDetectionSet is empty exactly when the
object had no photometry at all; in particular objects with no photometry
are kept, with an empty filtered set, rather than rejected. -/
theorem c3_theorem (τ F : ℚ) (objs : List Obj) (o : Obj) (fp : List Phot)
    (h : FilteredObj.mk o fp ∈ (get_and_process_valid_obj τ F objs).1) :
    fp = [] ↔ o.photometry = [] := by
  rcases List.mem_filterMap.mp h with ⟨a, _, ha2⟩
  rcases Option.map_eq_some'.mp ha2 with ⟨x, hx1, hx2⟩
  have hao : a = o := congrArg FilteredObj.obj hx2
  have hxfp : x = fp := congrArg FilteredObj.filtered_photometry hx2
  rw [hao, hxfp] at hx1
  constructor
  · intro hnil
    subst hnil
    have := processPhot_some_nil τ F o.photometry.reverse [] [] hx1
    exact List.reverse_eq_nil_iff.mp this.1
  · intro hnil
    rw [hnil] at hx1
    simp only [List.reverse_nil, processPhot, List.nil_append,
      Option.some.injEq] at hx1
    exact hx1.symm

/-- C3 witness: object E with no photometry, kept with an empty filtered
set, instantiates the amended equivalence. -/
theorem c3_witness : ([] : List Phot) = [] ↔ objE.photometry = [] :=
  c3_theorem 5 99 [objE] objE [] (by decide)

/-! Claims about the dedup window. -/

/-- C4: the source dedup window agrees with the claim-side description on
every input: drop the most recent filtered point; full list when nothing
remains or on first run; otherwise the first remaining point (scanning
newest to oldest) with mjd below the cursor bounds the regions kept to
those with `dateobs` at least that mjd, and with no such point the full
list is returned. -/
theorem c4_theorem (o : FilteredObj) (skymaps : List SkymapT) (cursor : ℚ)
    (fr : Bool) :
    get_new_skymaps_for_processed_obj o skymaps cursor fr
      = dedupWindowSpec o skymaps cursor fr := by
  rcases List.eq_nil_or_concat o.filtered_photometry with hnil | ⟨xs, x, hconcat⟩
  · rw [get_new_skymaps_for_processed_obj, dedupWindowSpec, hnil]
    simp
  · rw [get_new_skymaps_for_processed_obj, dedupWindowSpec, hconcat]
    cases fr with
    | true => simp
    | false =>
      by_cases hxs : xs = []
      · rw [hxs]; simp
      · have h1 : ¬(xs.length < 1) := by
          simpa [Nat.lt_one_iff, List.length_eq_zero] using hxs
        have h2 : xs.reverse ≠ [] := by simpa using hxs
        simp [h1, h2]

/-- C5 counterexample: with cursor mjd 100, remaining photometry reduced to
the point at mjd 50 (a boundary IS established), the region with `dateobs`
mjd 70 is marked new even though 70 is older than the cursor 100 — the
regions kept are bounded below by the boundary mjd, not by the cursor. -/
theorem c5_counterexample :
    get_new_skymaps_for_processed_obj objP [region70] 100 false = [region70]
      ∧ objP.filtered_photometry.dropLast.reverse.find?
          (fun p => decide (p.mjd < 100)) = some p50
      ∧ ¬ ∀ s ∈ get_new_skymaps_for_processed_obj objP [region70] 100 false,
            (100 : ℚ) ≤ s.dateobs := by
  refine ⟨rfl, by decide, ?_⟩
  intro h
  have e : get_new_skymaps_for_processed_obj objP [region70] 100 false
      = [region70] := rfl
  rw [e] at h
  have h70 := h region70 (List.mem_singleton.mpr rfl)
  norm_num [region70] at h70

/-- C5 amended: for a previously seen object (not first run), when a
boundary point with mjd below the cursor is found among the remaining
photometry, every region marked new has `dateobs` at least as recent as
THAT BOUNDARY POINT (not necessarily as the cursor itself). -/
theorem c5_theorem (o : FilteredObj) (skymaps : List SkymapT) (cursor : ℚ)
    (b : Phot)
    (hb : o.filtered_photometry.dropLast.reverse.find?
        (fun p => decide (p.mjd < cursor)) = some b) :
    ∀ s ∈ get_new_skymaps_for_processed_obj o skymaps cursor false,
      b.mjd ≤ s.dateobs := by
  intro s hs
  have hne : o.filtered_photometry.dropLast ≠ [] := by
    intro hnil
    rw [hnil] at hb
    simp at hb
  simp only [get_new_skymaps_for_processed_obj] at hs
  have hcond : ¬(o.filtered_photometry.dropLast.length < 1 ∨ (false : Bool) = true) := by
    simp only [Nat.lt_one_iff, List.length_eq_zero, Bool.false_eq_true, or_false]
    exact hne
  rw [if_neg hcond] at hs
  rw [hb] at hs
  rcases List.mem_filter.mp hs with ⟨_, hdec⟩
  exact of_decide_eq_true hdec

/-- C5 witness: the amended bound applied to the concrete boundary point at
mjd 50 and the region at mjd 70. -/
theorem c5_witness : p50.mjd ≤ region70.dateobs :=
  c5_theorem objP [region70] 100 p50 (by decide) region70
    (by
      have e : get_new_skymaps_for_processed_obj objP [region70] 100 false
          = [region70] := rfl
      rw [e]
      exact List.mem_singleton.mpr rfl)

/-! Helper lemmas about the cache as a key-unique association list (a
Python dict has unique keys by construction). -/

/-- In a cache with no duplicate keys, a key determines its entry. -/
theorem cache_key_unique {c : Cache} (h : (c.map Prod.fst).Nodup)
    {k : Nat} {t1 t2 : SkymapT} (h1 : (k, t1) ∈ c) (h2 : (k, t2) ∈ c) :
    t1 = t2 := by
  induction c with
  | nil => cases h1
  | cons a rest ih =>
    rw [List.map_cons, List.nodup_cons] at h
    rcases List.mem_cons.mp h1 with e1 | m1
    · rcases List.mem_cons.mp h2 with e2 | m2
      · rw [← e1] at e2
        exact (congrArg Prod.snd e2).symm
      · exfalso
        apply h.1
        rw [← e1]
        exact List.mem_map.mpr ⟨(k, t2), m2, rfl⟩
    · rcases List.mem_cons.mp h2 with e2 | m2
      · exfalso
        apply h.1
        rw [← e2]
        exact List.mem_map.mpr ⟨(k, t1), m1, rfl⟩
      · exact ih h.2 m1 m2

/-- With unique keys, deleting one key from the dict is filtering it out. -/
theorem eraseKey_eq_filter {c : Cache} (h : (c.map Prod.fst).Nodup) (k : Nat) :
    eraseKey c k = c.filter (fun kv => !(kv.1 == k)) := by
  induction c with
  | nil => rfl
  | cons a rest ih =>
    rw [List.map_cons, List.nodup_cons] at h
    by_cases hk : (a.1 == k) = true
    · simp only [eraseKey, List.eraseP_cons, hk, cond_true]
      rw [List.filter_cons_of_neg (by simp [hk])]
      symm
      rw [List.filter_eq_self]
      intro kv hkv
      have hne : kv.1 ≠ k := by
        intro he
        apply h.1
        rw [eq_of_beq hk, ← he]
        exact List.mem_map.mpr ⟨kv, hkv, rfl⟩
      simp [hne]
    · have hk2 : (a.1 == k) = false := by
        revert hk; cases (a.1 == k) <;> simp
      simp only [eraseKey, List.eraseP_cons, hk2, cond_false]
      rw [List.filter_cons_of_pos (by simp [hk2])]
      rw [← eraseKey, ih h.2]

/-- With unique keys, deleting each key of a list from the dict is
filtering out all of them. -/
theorem foldl_eraseKey_eq_filter :
    ∀ (K : List Nat) (c : Cache), (c.map Prod.fst).Nodup →
      K.foldl eraseKey c = c.filter (fun kv => decide (kv.1 ∉ K)) := by
  intro K
  induction K with
  | nil =>
    intro c _
    rw [List.foldl_nil]
    symm
    rw [List.filter_eq_self]
    intro a _
    simp
  | cons k K ih =>
    intro c h
    have hsub : ((eraseKey c k).map Prod.fst).Nodup :=
      List.Nodup.sublist ((List.eraseP_sublist c).map Prod.fst) h
    rw [List.foldl_cons, ih (eraseKey c k) hsub, eraseKey_eq_filter h k,
      List.filter_filter]
    apply List.filter_congr
    intro kv _
    by_cases h1 : kv.1 = k <;> by_cases h2 : kv.1 ∈ K <;>
      simp [h1, h2]

/-! Claims about the skymap cache. -/

/-- C6: upserting event A at t = 10 then at t = 5 yields the same cache as
upserting only the first; in general, an event whose qualifying
localization is not strictly newer than the cached entry for the same id is
not selected as new, so the cache is left unchanged. -/
theorem c6_theorem :
    upsert (upsert [] evA10) evA5 = upsert [] evA10
      ∧ ∀ (c : Cache) (e : GcnEvent) (loc : Loc) (t : SkymapT),
          qualifyingLoc e = some loc → c.lookup e.id = some t →
          loc.dateobs ≤ t.dateobs → upsert c e = c := by
  constructor
  · rfl
  · intro c e loc t hq hl hle
    have hsel : selectNewEvents c [e] = [] := by
      rw [selectNewEvents]
      simp [hq, hl, not_lt.mpr hle]
    rw [upsert, hsel]
    simp

/-- C6 witness: the general no-op case applied to event A at t = 5 against
the cache already holding A at t = 10. -/
theorem c6_witness : upsert (upsert [] evA10) evA5 = upsert [] evA10 :=
  c6_theorem.2 (upsert [] evA10) evA5 (Loc.mk 5 ["< 1000 sq. deg."] mocFalse)
    (SkymapT.mk 10 (aliasOf evA10) mocFalse) rfl rfl (by norm_num)

/-- C7: on a cache with unique keys (a dict), eviction at a horizon removes
exactly the entries with `dateobs` below the horizon and keeps every other
entry unchanged, same key mapped to the same tuple. -/
theorem c7_theorem (c : Cache) (fb : ℚ) (h : (c.map Prod.fst).Nodup)
    (k : Nat) (t : SkymapT) :
    (k, t) ∈ evict c fb ↔ (k, t) ∈ c ∧ ¬ t.dateobs < fb := by
  rw [evict]
  rw [foldl_eraseKey_eq_filter _ c h]
  rw [List.mem_filter]
  constructor
  · rintro ⟨hmem, hbool⟩
    refine ⟨hmem, fun hlt => ?_⟩
    have hin : k ∈ (c.filter (fun kv => decide (kv.2.dateobs < fb))).map Prod.fst :=
      List.mem_map.mpr ⟨(k, t),
        List.mem_filter.mpr ⟨hmem, decide_eq_true hlt⟩, rfl⟩
    rw [decide_eq_true_eq] at hbool
    exact hbool hin
  · rintro ⟨hmem, hnlt⟩
    refine ⟨hmem, ?_⟩
    rw [decide_eq_true_eq]
    intro hin
    rcases List.mem_map.mp hin with ⟨kv, hkv1, hkv2⟩
    rcases List.mem_filter.mp hkv1 with ⟨hkvc, hkvd⟩
    have hk1 : kv.1 = k := hkv2
    have hkvc2 : (k, kv.2) ∈ c := by
      rw [← hk1, Prod.mk.eta]
      exact hkvc
    have hsnd := cache_key_unique h hkvc2 hmem
    rw [hsnd] at hkvd
    exact hnlt (of_decide_eq_true hkvd)

/-- C7 witness: eviction at horizon 99 on the two-entry cache, instantiated
at the expired entry with `dateobs` 70. -/
theorem c7_witness :
    (1, region70) ∈ evict cacheW 99 ↔ (1, region70) ∈ cacheW ∧ ¬ region70.dateobs < 99 :=
  c7_theorem cacheW 99 (by decide) 1 region70

/-! Claims about the correlation loop cycle. -/

/-- C8 counterexample: when the liveness probe returns a NON-SUCCESS
response (`ping()` returns `False`; no timeout), the source discards the
return value, so the cycle proceeds: the GCN-event fetch is reached and a
notification is even dispatched — the remaining steps are not skipped. -/
theorem c8_counterexample :
    inpC8.ping = Except.ok false
      ∧ (cycleBody inpC8 cacheR true).fetched_gcn_events = true
      ∧ (cycleBody inpC8 cacheR true).notifications.length = 1 := by
  refine ⟨rfl, rfl, by decide⟩

/-- C8 amended: only a liveness-probe TIMEOUT (the raised `APIError`)
aborts the cycle; in that case none of the remaining steps run: no event
fetch, no cache mutation, no object query, no notification. -/
theorem c8_theorem (inp : CycleInput) (sk : Cache) (first : Bool)
    (h : inp.ping = Except.error ()) :
    cycleBody inp sk first
      = CycleOut.mk (some PyErr.apiTimeout) sk [] false false := by
  rw [cycleBody, h]

/-- C8 witness: the timeout case at a concrete input. -/
theorem c8_witness :
    cycleBody inpDown cacheR true
      = CycleOut.mk (some PyErr.apiTimeout) cacheR [] false false :=
  c8_theorem inpDown cacheR true rfl

/-- C9: against a backend reporting 2500 total matches and serving
`min 1000 remaining` items per page, `fetch_all_pages` performs exactly 3
page fetches and returns 2500 items; in general a page meeting the reported
total stops the iteration after that fetch, and a page not meeting it makes
the function request the next page. -/
theorem fetch_all_pages_stop {α : Type} (backend : Nat → List α × Nat)
    (fuel page : Nat) (acc : List α)
    (h : (backend page).2 ≤ (acc ++ (backend page).1).length) :
    fetch_all_pages backend (fuel + 1) page acc = (acc ++ (backend page).1, 1) := by
  simp only [fetch_all_pages]
  rw [if_pos h]

theorem fetch_all_pages_continue {α : Type} (backend : Nat → List α × Nat)
    (fuel page : Nat) (acc : List α)
    (h : ¬ (backend page).2 ≤ (acc ++ (backend page).1).length) :
    fetch_all_pages backend (fuel + 1) page acc
      = ((fetch_all_pages backend fuel (page + 1) (acc ++ (backend page).1)).1,
         (fetch_all_pages backend fuel (page + 1) (acc ++ (backend page).1)).2 + 1) := by
  simp only [fetch_all_pages]
  rw [if_neg h]

theorem backend2500_length (page : Nat) :
    (backend2500 page).1.length = min 1000 (2500 - (page - 1) * 1000) := by
  rw [backend2500]
  exact List.length_replicate _ _

/-- C9: against a backend reporting 2500 total matches and serving
`min 1000 remaining` items per page, `fetch_all_pages` performs exactly 3
page fetches and returns 2500 items; in general a page meeting the reported
total stops the iteration after that fetch, and a page not meeting it makes
the function request the next page. -/
theorem c9_theorem :
    ((fetch_all_pages backend2500 10 1 []).2 = 3
      ∧ (fetch_all_pages backend2500 10 1 []).1.length = 2500)
    ∧ (∀ (α : Type) (backend : Nat → List α × Nat) (fuel page : Nat)
          (acc : List α),
        (backend page).2 ≤ (acc ++ (backend page).1).length →
        fetch_all_pages backend (fuel + 1) page acc = (acc ++ (backend page).1, 1))
    ∧ (∀ (α : Type) (backend : Nat → List α × Nat) (fuel page : Nat)
          (acc : List α),
        ¬ (backend page).2 ≤ (acc ++ (backend page).1).length →
        fetch_all_pages backend (fuel + 1) page acc
          = ((fetch_all_pages backend fuel (page + 1) (acc ++ (backend page).1)).1,
             (fetch_all_pages backend fuel (page + 1) (acc ++ (backend page).1)).2 + 1)) := by
  have hlen1 : (([] : List Unit) ++ (backend2500 1).1).length = 1000 := by
    simp [backend2500_length]
  have hlen2 : ((([] : List Unit) ++ (backend2500 1).1) ++ (backend2500 2).1).length
      = 2000 := by
    simp [List.length_append, backend2500_length]
  have hlen3 : (((([] : List Unit) ++ (backend2500 1).1) ++ (backend2500 2).1)
      ++ (backend2500 3).1).length = 2500 := by
    simp [List.length_append, backend2500_length]
  have htot : ∀ page : Nat, (backend2500 page).2 = 2500 := fun _ => rfl
  have h1 : ¬ (backend2500 1).2 ≤ (([] : List Unit) ++ (backend2500 1).1).length := by
    rw [htot, hlen1]; norm_num
  have h2 : ¬ (backend2500 2).2
      ≤ ((([] : List Unit) ++ (backend2500 1).1) ++ (backend2500 2).1).length := by
    rw [htot, hlen2]; norm_num
  have h3 : (backend2500 3).2
      ≤ (((([] : List Unit) ++ (backend2500 1).1) ++ (backend2500 2).1)
          ++ (backend2500 3).1).length := by
    rw [htot, hlen3]
  have e1 := fetch_all_pages_continue backend2500 9 1 ([] : List Unit) h1
  have e2 := fetch_all_pages_continue backend2500 8 2
    (([] : List Unit) ++ (backend2500 1).1) h2
  have e3 := fetch_all_pages_stop backend2500 7 3
    ((([] : List Unit) ++ (backend2500 1).1) ++ (backend2500 2).1) h3
  have e10 : fetch_all_pages backend2500 10 1 ([] : List Unit)
      = ((fetch_all_pages backend2500 9 2 ([] ++ (backend2500 1).1)).1,
         (fetch_all_pages backend2500 9 2 ([] ++ (backend2500 1).1)).2 + 1) := e1
  have e9 : fetch_all_pages backend2500 9 2 (([] : List Unit) ++ (backend2500 1).1)
      = ((fetch_all_pages backend2500 8 3
            (([] ++ (backend2500 1).1) ++ (backend2500 2).1)).1,
         (fetch_all_pages backend2500 8 3
            (([] ++ (backend2500 1).1) ++ (backend2500 2).1)).2 + 1) := e2
  have e8 : fetch_all_pages backend2500 8 3
        ((([] : List Unit) ++ (backend2500 1).1) ++ (backend2500 2).1)
      = (((([] : List Unit) ++ (backend2500 1).1) ++ (backend2500 2).1)
          ++ (backend2500 3).1, 1) := e3
  refine ⟨⟨?_, ?_⟩, ?_, ?_⟩
  · rw [e10, e9, e8]
  · rw [e10, e9, e8, hlen3]
  · intro α backend fuel page acc h
    exact fetch_all_pages_stop backend fuel page acc h
  · intro α backend fuel page acc h
    exact fetch_all_pages_continue backend fuel page acc h

/-- C9 witness: the stop condition applied at page 3 with 2000 items
already accumulated. -/
theorem c9_witness :
    fetch_all_pages backend2500 1 3 (List.replicate 2000 ())
      = (List.replicate 2000 () ++ (backend2500 3).1, 1) :=
  c9_theorem.2.1 Unit backend2500 0 3 (List.replicate 2000 ())
    (by
      have ht : (backend2500 3).2 = 2500 := rfl
      have hl : (List.replicate 2000 () ++ (backend2500 3).1).length = 2500 := by
        rw [List.length_append, List.length_replicate, backend2500_length]
        simp [Nat.min_def]
      rw [ht, hl])

/-- C10: `get_skymaps` always returns a LIST of tuples, and in any cycle
that selects at least one new qualifying GCN event, the `.items()` call on
that list raises `AttributeError` before any entry is stored: the cache
leaves the cycle exactly as it entered it, no notification is dispatched,
and the rest of the cycle is skipped. -/
theorem c10_theorem :
    (∀ events : List GcnEvent, ∃ l, get_skymaps events = PyVal.plist l)
      ∧ ∀ (inp : CycleInput) (sk : Cache) (first b : Bool),
          inp.ping = Except.ok b →
          (selectNewEvents sk inp.gcn_events).isEmpty = false →
          cycleBody inp sk first
            = CycleOut.mk (some PyErr.attributeError) sk [] true false := by
  constructor
  · intro events
    exact ⟨events.filterMap skymapTupleOf, rfl⟩
  · intro inp sk first b hping hnew
    simp only [cycleBody, hping, hnew, Bool.false_eq_true, if_false,
      get_skymaps, PyVal.items]

/-- C10 witness: a cycle receiving one new qualifying event aborts with the
`AttributeError`, cache untouched and nothing dispatched. -/
theorem c10_witness :
    cycleBody inpC10 [] true
      = CycleOut.mk (some PyErr.attributeError) [] [] true false :=
  c10_theorem.2 inpC10 [] true true rfl (by decide)

/-- C1 counterexample: in the section-8 scenario (object O with detections
at mjd 100 SNR 8 and mjd 101 SNR 9, threshold 5, F = 99, region R covering
(10, 20) with `dateobs` at mjd 100, two consecutive polls both returning
O), TWO notifications are dispatched — one per poll — not exactly one: on
the second poll the boundary point is mjd 100 and the inclusive filter
`dateobs >= boundary` keeps R, whose `dateobs` equals the boundary. -/
theorem c1_counterexample :
    pollOut1.notifications.length + pollOut2.notifications.length = 2
      ∧ pollOut1.notifications.length + pollOut2.notifications.length ≠ 1 := by
  exact ⟨by decide, by decide⟩

/-- C1 amended: (universal part, as claimed) in any cycle that reaches the
dispatch step — probe answered, no new GCN events (whose processing raises
before dispatch), non-empty cache after eviction — every object kept by the
detection filter whose coordinates fall in at least one region of its dedup
candidate set gets a notification dispatched in that cycle; (scenario part,
amended) in the section-8 scenario exactly TWO notifications are dispatched
across the two polls, the second poll re-matching the region whose
`dateobs` equals the dedup boundary. -/
theorem c1_theorem :
    (∀ (inp : CycleInput) (sk : Cache) (first b : Bool) (o : FilteredObj),
      inp.ping = Except.ok b →
      (selectNewEvents sk inp.gcn_events).isEmpty = true →
      (evictPhase sk inp.gcn_fallback).isEmpty = false →
      o ∈ (get_and_process_valid_obj snr_threshold inp.first_detection_fallback
            inp.objs).1 →
      (is_obj_in_skymaps o.obj.ra o.obj.dec
          (get_new_skymaps_for_processed_obj o
            ((evictPhase sk inp.gcn_fallback).map Prod.snd)
            inp.dedup_cursor first)).isEmpty = false →
      (o.obj.id,
        is_obj_in_skymaps o.obj.ra o.obj.dec
          (get_new_skymaps_for_processed_obj o
            ((evictPhase sk inp.gcn_fallback).map Prod.snd)
            inp.dedup_cursor first)) ∈ (cycleBody inp sk first).notifications)
    ∧ pollOut1.notifications.length + pollOut2.notifications.length = 2 := by
  constructor
  · intro inp sk first b o hping hsel hcache hmem hmatch
    have hred : (cycleBody inp sk first).notifications
        = notificationsFor (evictPhase sk inp.gcn_fallback) inp.objs
            inp.first_detection_fallback inp.dedup_cursor first := by
      simp only [cycleBody, hping, hsel, eq_self_iff_true, if_true,
        objectPhase, hcache, Bool.false_eq_true, if_false]
    rw [hred, notificationsFor]
    apply List.mem_filterMap.mpr
    refine ⟨o, hmem, ?_⟩
    simp only []
    rw [if_neg (by rw [hmatch]; exact Bool.false_ne_true)]
  · decide

/-- C1 witness: the universal dispatch property applied to the second
scenario poll. -/
theorem c1_witness :
    (objO.id, is_obj_in_skymaps objO.ra objO.dec
        (get_new_skymaps_for_processed_obj (FilteredObj.mk objO [p100, p101])
          ((evictPhase cacheR 99).map Prod.snd) 101 false))
      ∈ (cycleBody inpPoll cacheR false).notifications :=
  c1_theorem.1 inpPoll cacheR false true (FilteredObj.mk objO [p100, p101])
    rfl rfl rfl (by decide) (by decide)

end Crossmatch
